import Mathlib

/-!
Verification of the `wdt` command-line front-end (`src/wdtCmdLine.cpp`).

The file is a shallow embedding of `main` of `wdtCmdLine.cpp` as a pure
function.  The flags declared with `DEFINE_*` become a `Flags` record; the
calls into the wdt library (`Receiver::init`, `Sender::transfer`,
`WdtTransferRequest(url)`, `TransferLogManager::parseAndPrint`, stream
contents, ...) are not under `src/` and are abstracted as an `Env` record of
oracles, so that `main`'s own control flow — which is entirely in
`src/wdtCmdLine.cpp` — is modelled exactly.  Side effects performed by
`main` (the `signal` call, stdout writes, mutation of the global
`WdtOptions`, starting a transfer) are recorded as an ordered list of
events, and the final `return` statement becomes an `Outcome`.
-/

set_option autoImplicit false

namespace Wdt

/-- Modelled from the spec: the closed enumeration of error codes of §6
("Exit codes: 0 on success; otherwise the transfer's worst ErrorCode as a
small positive integer. Specifically: OK=0, ERROR=generic, ABORT, ...").
`ErrorCodes.h` is not under `src/`; only `OK = 0` and the positivity and
smallness of the other values matter to the claims. -/
inductive ErrorCode where
  | OK
  | ERROR
  | ABORT
  | CONN_ERROR
  | SOCKET_READ_ERROR
  | SOCKET_WRITE_ERROR
  | FILE_READ_ERROR
  | FILE_WRITE_ERROR
  | PROTOCOL_ERROR
  | VERSION_MISMATCH
  | FEWER_PORTS
  | CHECKSUM_MISMATCH
  | ABORTED_BY_APPLICATION
  deriving DecidableEq, Repr

/-- The integer value of an error code, in the order the spec lists them
(§6); a C++ `return code;` from `main` makes this the process exit code. -/
def ErrorCode.toNat : ErrorCode → Nat
  | .OK => 0
  | .ERROR => 1
  | .ABORT => 2
  | .CONN_ERROR => 3
  | .SOCKET_READ_ERROR => 4
  | .SOCKET_WRITE_ERROR => 5
  | .FILE_READ_ERROR => 6
  | .FILE_WRITE_ERROR => 7
  | .PROTOCOL_ERROR => 8
  | .VERSION_MISMATCH => 9
  | .FEWER_PORTS => 10
  | .CHECKSUM_MISMATCH => 11
  | .ABORTED_BY_APPLICATION => 12

/-- One entry of `WdtTransferRequest::fileInfo` (`WdtFileInfo`): a relative
path and a size, `-1` when the size is unknown (`wdtCmdLine.cpp` line 127:
`fields.size() > 1 ? folly::to<int64_t>(fields[1]) : -1`). -/
structure FileInfo where
  fileName : String
  fileSize : Int
  deriving DecidableEq, Repr

/-- The parts of `WdtTransferRequest` that `wdtCmdLine.cpp` reads or
writes: error code, ports, directory, destination host, transfer id,
protocol version and the pre-enumerated file list. -/
structure WdtTransferRequest where
  errorCode : ErrorCode
  startPort : Nat
  numPorts : Nat
  directory : String
  hostName : String
  transferId : String
  protocolVersion : Int
  fileInfo : List FileInfo
  deriving DecidableEq, Repr

/-- The command-line flags defined in `wdtCmdLine.cpp` (`DEFINE_bool`,
`DEFINE_string`, `DEFINE_int32`), with the claim-relevant ones included. -/
structure Flags where
  run_as_daemon : Bool
  directory : String
  manifest : String
  destination : String
  parse_transfer_log : Bool
  transfer_id : String
  protocol_version : Int
  connection_url : String
  abort_after_seconds : Int
  recovery_id : String
  treat_fewer_port_as_error : Bool
  print_options : Bool
  deriving DecidableEq, Repr

/-- POSIX signal number of SIGPIPE. -/
def SIGPIPE : Nat := 13

/-- POSIX signal number of SIGINT. -/
def SIGINT : Nat := 2

/-- POSIX signal number of SIGTERM. -/
def SIGTERM : Nat := 15

/-- A signal disposition that `main` could install: `SIG_IGN`, or a handler
that sets the global abort flag (the disposition the spec's design notes
prescribe for SIGINT/SIGTERM). -/
inductive SigDisp where
  | ignore
  | triggerAbort
  deriving DecidableEq, Repr

/-- The observable actions `main` of `wdtCmdLine.cpp` performs, in program
order.  Library-internal behaviour (what `parseAndPrint` prints, what the
transfer threads do) stays inside the one event naming the call. -/
inductive Event where
  | signal (sig : Nat) (d : SigDisp)
  | printOptions
  | setResumption (b : Bool)
  | openLog (dir : String)
  | parseAndPrint (ok : Bool)
  | closeLog
  | receiverInit
  | stdoutLine (s : String)
  | stdoutFlush
  | setRecoveryId (s : String)
  | transferAsync
  | finishTransfer (c : ErrorCode)
  | runForeverEntered
  | senderInit
  | senderTransfer (c : ErrorCode)
  deriving DecidableEq, Repr

/-- How the process run ends: a `return code;` from `main`, a
`LOG(FATAL)` abort (invalid manifest line), or entering
`Receiver::runForever`, which does not return. -/
inductive Outcome where
  | exits (code : Nat)
  | fatalLog
  | daemon
  deriving DecidableEq, Repr

/-- Oracles for the library calls `main` makes; the wdt library itself is
not under `src/`.  `urlParse` stands for the `WdtTransferRequest(url)`
constructor, `receiverInitCode`/`receiverUrl` for `Receiver::init` and
`generateUrl` on its result, `receiverReport`/`senderReport` for the
summary error code of the `TransferReport` of `Receiver::finish` /
`Sender::transfer`, `logParseSuccess` for
`TransferLogManager::parseAndPrint`, `stdinLines`/`fileLines` for stream
contents, `abortFires` for the abort checker, and
`optStartPort`/`optNumPorts`/`defaultProtocolVersion`/`initialResumption`
for the global `WdtOptions`. -/
structure Env where
  optStartPort : Nat
  optNumPorts : Nat
  defaultProtocolVersion : Int
  initialResumption : Bool
  urlParse : String → WdtTransferRequest
  stdinLines : List String
  fileLines : String → List String
  logParseSuccess : Bool
  receiverInitCode : ErrorCode
  receiverUrl : String
  receiverReport : ErrorCode
  senderReport : ErrorCode
  abortFires : Nat → Bool

/-- The result of one modelled run of `main`: the event trace, the outcome,
the final value of the global `enable_download_resumption` option, the
request as it stands after the `protocol_version` override (line 203-205),
and the request as finally handed to `Sender`/`Receiver` (after manifest
ingestion on the sender side). -/
structure RunOut where
  events : List Event
  outcome : Outcome
  finalResumption : Bool
  reqAfterVersion : Option WdtTransferRequest
  reqFinal : Option WdtTransferRequest

/-- Splitting a character list at tab characters (the raw pieces of
`folly::split('\t', line, fields, true)` before empty pieces are dropped). -/
def splitTabChars : List Char → List (List Char)
  | [] => [[]]
  | c :: cs =>
    match splitTabChars cs with
    | [] => [[c]]
    | t :: ts => if c = '\t' then [] :: t :: ts else (c :: t) :: ts

/-- All tab-separated pieces of a line, empty pieces included. -/
def splitTab (s : String) : List String :=
  (splitTabChars s.toList).map (fun cs => String.mk cs)

/-- `folly::split('\t', line, fields, true)` of `readManifest` (line 123):
split at tabs and drop the empty pieces (the final `true` argument is
`ignoreEmpty`). -/
def follySplitTab (line : String) : List String :=
  (splitTab line).filter (fun t => ¬ t = "")

/-- Decimal digit run, accumulator style: `none` unless every character is
a digit and there is at least one. -/
def parseDigitsAux : List Char → Nat → Option Nat
  | [], acc => some acc
  | c :: cs, acc =>
    if c.isDigit then parseDigitsAux cs (acc * 10 + (c.toNat - 48))
    else none

/-- `folly::to<int64_t>` on a full string: optional sign, then decimal
digits, the whole string consumed; anything else throws (here `none`).
Overflow of int64 also throws in folly and is not modelled (manifest sizes
are file sizes). -/
def follyToInt64 (s : String) : Option Int :=
  match s.toList with
  | [] => none
  | '-' :: [] => none
  | '-' :: c :: cs => Option.map (fun n => -(n : Int)) (parseDigitsAux (c :: cs) 0)
  | '+' :: [] => none
  | '+' :: c :: cs => Option.map (fun n => (n : Int)) (parseDigitsAux (c :: cs) 0)
  | cs => Option.map (fun n => (n : Int)) (parseDigitsAux cs 0)

/-- One line of `readManifest` (`wdtCmdLine.cpp` lines 121-129).  Zero or
more than two non-empty fields is `LOG(FATAL)`; one field gives size `-1`;
with two fields the second is converted by `folly::to<int64_t>`, whose
failure (an uncaught exception) is modelled, like `LOG(FATAL)`, as `none`
since both kill the process. -/
def parseManifestLine (line : String) : Option FileInfo :=
  match follySplitTab line with
  | [p] => some { fileName := p, fileSize := -1 }
  | [p, s] => Option.map (fun n => { fileName := p, fileSize := n }) (follyToInt64 s)
  | _ => none

/-- `readManifest` (lines 119-130): parse every line, stopping the process
at the first invalid one; returns the `fileInfo` entries appended to the
request. -/
def readManifest : List String → Option (List FileInfo)
  | [] => some []
  | l :: ls =>
    match parseManifestLine l with
    | none => none
    | some fi =>
      match readManifest ls with
      | none => none
      | some rest => some (fi :: rest)

/-- Request construction, lines 188-201: with no `connection_url` the
request is built from the options ports, `FLAGS_directory`,
`FLAGS_destination` and `FLAGS_transfer_id` (protocol version from the
library default); otherwise the url is parsed and `directory` overridden. -/
def buildRequest (f : Flags) (env : Env) : WdtTransferRequest :=
  if f.connection_url = "" then
    { errorCode := ErrorCode.OK, startPort := env.optStartPort,
      numPorts := env.optNumPorts, directory := f.directory,
      hostName := f.destination, transferId := f.transfer_id,
      protocolVersion := env.defaultProtocolVersion, fileInfo := [] }
  else
    let r := env.urlParse f.connection_url
    { r with directory := f.directory }

/-- Lines 203-205: `if (FLAGS_protocol_version > 0) req.protocolVersion =
FLAGS_protocol_version;`. -/
def reqAfterOverride (f : Flags) (env : Env) : WdtTransferRequest :=
  if 0 < f.protocol_version then
    { buildRequest f env with protocolVersion := f.protocol_version }
  else
    buildRequest f env

/-- The receiver branch of `main` (lines 207-234): init, the fewer-ports
and error checks, printing and flushing the connection url, the
recovery-id block, then either one `transferAsync`/`finish` round or
`runForever`. -/
def receiverRun (f : Flags) (env : Env) (req : WdtTransferRequest) : RunOut :=
  let evInit : List Event := [Event.signal SIGPIPE SigDisp.ignore, Event.receiverInit]
  if f.treat_fewer_port_as_error = true ∧ env.receiverInitCode = ErrorCode.FEWER_PORTS then
    { events := evInit, outcome := Outcome.exits (ErrorCode.toNat ErrorCode.FEWER_PORTS),
      finalResumption := env.initialResumption,
      reqAfterVersion := some req, reqFinal := some req }
  else if env.receiverInitCode = ErrorCode.ERROR then
    { events := evInit, outcome := Outcome.exits (ErrorCode.toNat ErrorCode.ERROR),
      finalResumption := env.initialResumption,
      reqAfterVersion := some req, reqFinal := some req }
  else
    let evUrl : List Event := evInit ++ [Event.stdoutLine env.receiverUrl, Event.stdoutFlush]
    let evRec : List Event :=
      if f.recovery_id = "" then evUrl
      else evUrl ++ [Event.setResumption true, Event.setRecoveryId f.recovery_id]
    let resum : Bool := if f.recovery_id = "" then env.initialResumption else true
    if f.run_as_daemon = false then
      { events := evRec ++ [Event.transferAsync, Event.finishTransfer env.receiverReport],
        outcome := Outcome.exits (ErrorCode.toNat env.receiverReport),
        finalResumption := resum, reqAfterVersion := some req, reqFinal := some req }
    else
      { events := evRec ++ [Event.runForeverEntered], outcome := Outcome.daemon,
        finalResumption := resum, reqAfterVersion := some req, reqFinal := some req }

/-- The sender branch of `main` (lines 235-257): optional manifest
ingestion (`-` meaning stdin), then `Sender::init` and `Sender::transfer`,
returning the report's summary code. -/
def senderRun (f : Flags) (env : Env) (req : WdtTransferRequest) : RunOut :=
  if f.manifest = "" then
    { events := [Event.signal SIGPIPE SigDisp.ignore, Event.senderInit,
        Event.senderTransfer env.senderReport],
      outcome := Outcome.exits (ErrorCode.toNat env.senderReport),
      finalResumption := env.initialResumption,
      reqAfterVersion := some req, reqFinal := some req }
  else
    match readManifest (if f.manifest = "-" then env.stdinLines else env.fileLines f.manifest) with
    | none =>
      { events := [Event.signal SIGPIPE SigDisp.ignore], outcome := Outcome.fatalLog,
        finalResumption := env.initialResumption,
        reqAfterVersion := some req, reqFinal := none }
    | some fis =>
      { events := [Event.signal SIGPIPE SigDisp.ignore, Event.senderInit,
          Event.senderTransfer env.senderReport],
        outcome := Outcome.exits (ErrorCode.toNat env.senderReport),
        finalResumption := env.initialResumption,
        reqAfterVersion := some req,
        reqFinal := some { req with fileInfo := req.fileInfo ++ fis } }

/-- `main` of `wdtCmdLine.cpp` after gflags/glog setup: the lone
`signal(SIGPIPE, SIG_IGN)` (line 162), the `print_options` early return
(165-168), the transfer-log parsing mode (173-183), request construction
and the invalid-url early return (188-201), the protocol-version override
(203-205), and the receiver/sender branch (207-257). -/
def runMain (f : Flags) (env : Env) : RunOut :=
  if f.print_options = true then
    { events := [Event.signal SIGPIPE SigDisp.ignore, Event.printOptions],
      outcome := Outcome.exits 0, finalResumption := env.initialResumption,
      reqAfterVersion := none, reqFinal := none }
  else if f.parse_transfer_log = true then
    { events := [Event.signal SIGPIPE SigDisp.ignore, Event.setResumption true,
        Event.openLog f.directory, Event.parseAndPrint env.logParseSuccess, Event.closeLog],
      outcome := Outcome.exits (if env.logParseSuccess = true then
        ErrorCode.toNat ErrorCode.OK else ErrorCode.toNat ErrorCode.ERROR),
      finalResumption := true, reqAfterVersion := none, reqFinal := none }
  else if ¬ f.connection_url = "" ∧ ¬ (buildRequest f env).errorCode = ErrorCode.OK then
    { events := [Event.signal SIGPIPE SigDisp.ignore],
      outcome := Outcome.exits (ErrorCode.toNat ErrorCode.ERROR),
      finalResumption := env.initialResumption,
      reqAfterVersion := none, reqFinal := none }
  else if f.destination = "" ∧ f.connection_url = "" then
    receiverRun f env (reqAfterOverride f env)
  else
    senderRun f env (reqAfterOverride f env)

/-- Modelled from the spec: `Receiver::runForever` is not under `src/`;
§4.4 "After one transfer completes the receiver resets per-transfer state
and re-binds, running forever until the abort checker fires."  Fuel-indexed
loop: each iteration consults the abort checker and otherwise serves one
more transfer; `none` means the loop has not returned within `fuel`
iterations. -/
def runForever (abortFires : Nat → Bool) (iter : Nat) : Nat → Option ErrorCode
  | 0 => none
  | Nat.succ fuel =>
    if abortFires iter = true then some ErrorCode.ABORTED_BY_APPLICATION
    else runForever abortFires (iter + 1) fuel

/-- Is an event one of the signal-disposition installations? -/
def isSignalEvent : Event → Bool
  | .signal _ _ => true
  | _ => false

/-- Is an event the start or completion of a transfer (either role)? -/
def isTransferEvent : Event → Bool
  | .transferAsync => true
  | .finishTransfer _ => true
  | .runForeverEntered => true
  | .senderTransfer _ => true
  | _ => false

/-- Is an event the receiver's `transferAsync` call? -/
def isTransferAsyncEvent : Event → Bool
  | .transferAsync => true
  | _ => false

/-- Is an event the receiver's `finish` call? -/
def isFinishEvent : Event → Bool
  | .finishTransfer _ => true
  | _ => false

/-- Is an event a `setRecoveryId` call? -/
def isRecoveryEvent : Event → Bool
  | .setRecoveryId _ => true
  | _ => false

/-- The default flag values, as declared by the `DEFINE_*` lines of
`wdtCmdLine.cpp`. -/
def defFlags : Flags :=
  { run_as_daemon := false, directory := ".", manifest := "", destination := "",
    parse_transfer_log := false, transfer_id := "", protocol_version := 0,
    connection_url := "", abort_after_seconds := 0, recovery_id := "",
    treat_fewer_port_as_error := false, print_options := false }

/-- An all-default request, used as the base of concrete environments. -/
def zeroReq : WdtTransferRequest :=
  { errorCode := ErrorCode.OK, startPort := 0, numPorts := 0, directory := "",
    hostName := "", transferId := "", protocolVersion := 0, fileInfo := [] }

/-- A benign concrete environment: url parsing succeeds, receiver init
succeeds, every report is OK, the abort checker never fires. -/
def defEnv : Env :=
  { optStartPort := 22356, optNumPorts := 8, defaultProtocolVersion := 27,
    initialResumption := false,
    urlParse := fun _ =>
      { zeroReq with
        hostName := "h"
        transferId := "t"
        startPort := 22356
        numPorts := 3
        protocolVersion := 24 },
    stdinLines := [], fileLines := fun _ => [], logParseSuccess := true,
    receiverInitCode := ErrorCode.OK, receiverUrl := "wdt://h?id=t",
    receiverReport := ErrorCode.OK, senderReport := ErrorCode.OK,
    abortFires := fun _ => false }

/-- Sender-mode flags: a destination host is given. -/
def senderFlags : Flags := { defFlags with destination := "host" }

/-- Environment whose sender transfer ends with `CONN_ERROR`. -/
def connErrEnv : Env := { defEnv with senderReport := ErrorCode.CONN_ERROR }

/-- Receiver flags with `treat_fewer_port_as_error` set. -/
def strictPortFlags : Flags := { defFlags with treat_fewer_port_as_error := true }

/-- Environment whose receiver init reports `FEWER_PORTS`. -/
def fewerPortsEnv : Env := { defEnv with receiverInitCode := ErrorCode.FEWER_PORTS }

/-- Flags with an empty destination but a connection url: the sender case
the spec's "empty destination means receiver" sentence overlooks. -/
def urlOnlyFlags : Flags := { defFlags with connection_url := "wdt://h?id=t" }

/-- Sender flags reading the manifest from stdin. -/
def manifestFlags : Flags := { defFlags with destination := "host", manifest := "-" }

/-- Environment with a two-line manifest on stdin. -/
def manifestEnv : Env := { defEnv with stdinLines := ["x\t7", "y"] }

/-- Receiver flags running as daemon. -/
def daemonFlags : Flags := { defFlags with run_as_daemon := true }

/-- Sender flags with a positive protocol-version override. -/
def versionFlags : Flags := { defFlags with destination := "host", protocol_version := 19 }

/-- Receiver flags with a recovery id. -/
def recoveryFlags : Flags := { defFlags with recovery_id := "rec1" }

/-- Flags selecting the transfer-log parsing mode. -/
def logFlags : Flags := { defFlags with parse_transfer_log := true }

/-- Environment whose url parsing fails. -/
def invalidUrlEnv : Env :=
  { defEnv with urlParse := fun _ => { zeroReq with errorCode := ErrorCode.ERROR } }

end Wdt

/-! ## Helper lemmas about the branches of `main` -/

namespace Wdt

theorem buildRequest_errorCode_of_url (f : Flags) (env : Env)
    (h : f.connection_url = "" ∨ (env.urlParse f.connection_url).errorCode = ErrorCode.OK) :
    (buildRequest f env).errorCode = ErrorCode.OK := by
  unfold buildRequest
  rcases h with h | h
  · simp [h]
  · by_cases hu : f.connection_url = "" <;> simp [hu, h]

theorem buildRequest_of_url (f : Flags) (env : Env) (h : ¬ f.connection_url = "") :
    buildRequest f env = { env.urlParse f.connection_url with directory := f.directory } := by
  unfold buildRequest
  simp [h]

theorem runMain_receiver (f : Flags) (env : Env)
    (h1 : f.print_options = false) (h2 : f.parse_transfer_log = false)
    (h3 : f.destination = "") (h4 : f.connection_url = "") :
    runMain f env = receiverRun f env (reqAfterOverride f env) := by
  unfold runMain
  simp [h1, h2, h3, h4]

theorem runMain_sender (f : Flags) (env : Env)
    (h1 : f.print_options = false) (h2 : f.parse_transfer_log = false)
    (h3 : ¬ (f.destination = "" ∧ f.connection_url = ""))
    (h4 : (buildRequest f env).errorCode = ErrorCode.OK) :
    runMain f env = senderRun f env (reqAfterOverride f env) := by
  unfold runMain
  simp [h1, h2, h3, h4]

theorem runMain_invalidUrl (f : Flags) (env : Env)
    (h1 : f.print_options = false) (h2 : f.parse_transfer_log = false)
    (h3 : ¬ f.connection_url = "")
    (h4 : ¬ (env.urlParse f.connection_url).errorCode = ErrorCode.OK) :
    runMain f env =
      { events := [Event.signal SIGPIPE SigDisp.ignore],
        outcome := Outcome.exits (ErrorCode.toNat ErrorCode.ERROR),
        finalResumption := env.initialResumption,
        reqAfterVersion := none, reqFinal := none } := by
  have hb : ¬ (buildRequest f env).errorCode = ErrorCode.OK := by
    rw [buildRequest_of_url f env h3]
    exact h4
  unfold runMain
  simp [h1, h2, h3, hb]

theorem receiverRun_reqAfterVersion (f : Flags) (env : Env) (r : WdtTransferRequest) :
    (receiverRun f env r).reqAfterVersion = some r := by
  unfold receiverRun
  split_ifs <;> rfl

theorem senderRun_reqAfterVersion (f : Flags) (env : Env) (r : WdtTransferRequest) :
    (senderRun f env r).reqAfterVersion = some r := by
  unfold senderRun
  split
  · rfl
  · split <;> rfl

theorem reqAfterOverride_protocolVersion (f : Flags) (env : Env) :
    (reqAfterOverride f env).protocolVersion =
      if 0 < f.protocol_version then f.protocol_version
      else (buildRequest f env).protocolVersion := by
  unfold reqAfterOverride
  split <;> rfl

theorem reqAfterOverride_fileInfo (f : Flags) (env : Env) :
    (reqAfterOverride f env).fileInfo = (buildRequest f env).fileInfo := by
  unfold reqAfterOverride
  split <;> rfl

theorem reqAfterOverride_fields (f : Flags) (env : Env) :
    (reqAfterOverride f env).hostName = (buildRequest f env).hostName
  ∧ (reqAfterOverride f env).transferId = (buildRequest f env).transferId
  ∧ (reqAfterOverride f env).startPort = (buildRequest f env).startPort
  ∧ (reqAfterOverride f env).numPorts = (buildRequest f env).numPorts
  ∧ (reqAfterOverride f env).directory = (buildRequest f env).directory := by
  unfold reqAfterOverride
  split <;> exact ⟨rfl, rfl, rfl, rfl, rfl⟩

theorem receiverRun_no_senderTransfer (f : Flags) (env : Env) (r : WdtTransferRequest)
    (c : ErrorCode) : Event.senderTransfer c ∉ (receiverRun f env r).events := by
  unfold receiverRun
  split_ifs <;> simp

theorem senderRun_no_finishTransfer (f : Flags) (env : Env) (r : WdtTransferRequest)
    (c : ErrorCode) : Event.finishTransfer c ∉ (senderRun f env r).events := by
  unfold senderRun
  split
  · simp
  · split <;> simp

theorem senderRun_transfer_code (f : Flags) (env : Env) (r : WdtTransferRequest)
    (c : ErrorCode) :
    Event.senderTransfer c ∈ (senderRun f env r).events →
      (senderRun f env r).outcome = Outcome.exits (ErrorCode.toNat c) := by
  unfold senderRun
  split
  · intro h
    simp at h
    simp [h]
  · split
    · intro h
      simp at h
    · intro h
      simp at h
      simp [h]

theorem receiverRun_finish_code (f : Flags) (env : Env) (r : WdtTransferRequest)
    (c : ErrorCode) :
    Event.finishTransfer c ∈ (receiverRun f env r).events →
      (receiverRun f env r).outcome = Outcome.exits (ErrorCode.toNat c) := by
  unfold receiverRun
  split_ifs <;> intro h <;> simp at h <;> simp [h]

theorem runForever_not_aborted (a : Nat → Bool) (h : ∀ n, a n = false) :
    ∀ fuel iter, runForever a iter fuel = none := by
  intro fuel
  induction fuel with
  | zero => intro iter; rfl
  | succ n ih =>
    intro iter
    unfold runForever
    simp [h iter, ih]

end Wdt

namespace Wdt

theorem receiverRun_mem_receiverInit (f : Flags) (env : Env) (r : WdtTransferRequest) :
    Event.receiverInit ∈ (receiverRun f env r).events := by
  unfold receiverRun
  split_ifs <;> simp

theorem senderRun_no_receiverInit (f : Flags) (env : Env) (r : WdtTransferRequest) :
    Event.receiverInit ∉ (senderRun f env r).events := by
  unfold senderRun
  split
  · simp
  · split <;> simp

theorem runMain_senderTransfer_code (f : Flags) (env : Env) (c : ErrorCode) :
    Event.senderTransfer c ∈ (runMain f env).events →
      (runMain f env).outcome = Outcome.exits (ErrorCode.toNat c) := by
  unfold runMain
  split
  · intro h
    simp at h
  · split
    · intro h
      simp at h
    · split
      · intro h
        simp at h
      · split
        · intro h
          exact absurd h (receiverRun_no_senderTransfer f env (reqAfterOverride f env) c)
        · exact senderRun_transfer_code f env (reqAfterOverride f env) c

theorem runMain_finishTransfer_code (f : Flags) (env : Env) (c : ErrorCode) :
    Event.finishTransfer c ∈ (runMain f env).events →
      (runMain f env).outcome = Outcome.exits (ErrorCode.toNat c) := by
  unfold runMain
  split
  · intro h
    simp at h
  · split
    · intro h
      simp at h
    · split
      · intro h
        simp at h
      · split
        · exact receiverRun_finish_code f env (reqAfterOverride f env) c
        · intro h
          exact absurd h (senderRun_no_finishTransfer f env (reqAfterOverride f env) c)

end Wdt

/-! ## The claims -/

namespace Wdt

/-- Claim C1: for every run that performs a transfer and exits, the process
exit code is the transfer report's summary error code — 0 exactly when that
code is OK, and otherwise a small positive integer — and an invalid
connection URL makes the process exit with the nonzero code ERROR. -/
theorem C1_exit_codes (f : Flags) (env : Env) (c : ErrorCode) :
    (Event.senderTransfer c ∈ (runMain f env).events →
        (runMain f env).outcome = Outcome.exits (ErrorCode.toNat c))
  ∧ (Event.finishTransfer c ∈ (runMain f env).events →
        (runMain f env).outcome = Outcome.exits (ErrorCode.toNat c))
  ∧ (ErrorCode.toNat c = 0 ↔ c = ErrorCode.OK)
  ∧ (¬ c = ErrorCode.OK → 0 < ErrorCode.toNat c ∧ ErrorCode.toNat c < 256)
  ∧ (f.print_options = false → f.parse_transfer_log = false →
       ¬ f.connection_url = "" →
       ¬ (env.urlParse f.connection_url).errorCode = ErrorCode.OK →
         (runMain f env).outcome = Outcome.exits (ErrorCode.toNat ErrorCode.ERROR)
       ∧ ¬ ErrorCode.toNat ErrorCode.ERROR = 0) := by
  refine ⟨runMain_senderTransfer_code f env c, runMain_finishTransfer_code f env c, ?_, ?_, ?_⟩
  · cases c <;> simp [ErrorCode.toNat]
  · intro h
    cases c
    · exact absurd rfl h
    all_goals decide
  · intro h1 h2 h3 h4
    rw [runMain_invalidUrl f env h1 h2 h3 h4]
    exact ⟨rfl, by decide⟩

/-- Witness for C1: a sender run whose report summary is CONN_ERROR exits
with the CONN_ERROR value. -/
theorem C1_exit_codes_witness :
    Event.senderTransfer ErrorCode.CONN_ERROR ∈ (runMain senderFlags connErrEnv).events
  ∧ (runMain senderFlags connErrEnv).outcome =
      Outcome.exits (ErrorCode.toNat ErrorCode.CONN_ERROR)
  ∧ ¬ ErrorCode.toNat ErrorCode.CONN_ERROR = 0 := by
  refine ⟨by decide, ?_, by decide⟩
  exact (C1_exit_codes senderFlags connErrEnv ErrorCode.CONN_ERROR).1 (by decide)

end Wdt

namespace Wdt

/-- Claim C2: when receiver init reports FEWER_PORTS, a set
`treat_fewer_port_as_error` flag makes the process exit immediately with
code FEWER_PORTS and no transfer; an unset flag lets the run continue:
the connection url is printed and the transfer (or the daemon loop) is
started, the plain run exiting with its report's summary code. -/
theorem C2_fewer_ports (f : Flags) (env : Env)
    (h1 : f.print_options = false) (h2 : f.parse_transfer_log = false)
    (h3 : f.destination = "") (h4 : f.connection_url = "")
    (h5 : env.receiverInitCode = ErrorCode.FEWER_PORTS) :
    (f.treat_fewer_port_as_error = true →
        (runMain f env).outcome = Outcome.exits (ErrorCode.toNat ErrorCode.FEWER_PORTS)
      ∧ ¬ ErrorCode.toNat ErrorCode.FEWER_PORTS = 0
      ∧ (runMain f env).events.filter isTransferEvent = [])
  ∧ (f.treat_fewer_port_as_error = false →
        Event.stdoutLine env.receiverUrl ∈ (runMain f env).events
      ∧ (f.run_as_daemon = false →
            (runMain f env).events.filter isTransferAsyncEvent = [Event.transferAsync]
          ∧ (runMain f env).outcome = Outcome.exits (ErrorCode.toNat env.receiverReport))
      ∧ (f.run_as_daemon = true →
            Event.runForeverEntered ∈ (runMain f env).events)) := by
  rw [runMain_receiver f env h1 h2 h3 h4]
  unfold receiverRun
  rw [h5]
  constructor
  · intro ht
    rw [if_pos ⟨ht, rfl⟩]
    exact ⟨rfl, by decide, rfl⟩
  · intro ht
    rw [if_neg (by simp [ht]), if_neg (by decide)]
    by_cases hr : f.recovery_id = "" <;>
      by_cases hd : f.run_as_daemon = false <;>
        simp_all [isTransferAsyncEvent]

/-- Witness for C2: a strict receiver whose init reports FEWER_PORTS exits
with that code without transferring. -/
theorem C2_fewer_ports_witness :
    fewerPortsEnv.receiverInitCode = ErrorCode.FEWER_PORTS
  ∧ strictPortFlags.treat_fewer_port_as_error = true
  ∧ (runMain strictPortFlags fewerPortsEnv).outcome =
      Outcome.exits (ErrorCode.toNat ErrorCode.FEWER_PORTS)
  ∧ (runMain strictPortFlags fewerPortsEnv).events.filter isTransferEvent = [] := by
  have h := (C2_fewer_ports strictPortFlags fewerPortsEnv rfl rfl rfl rfl rfl).1 rfl
  exact ⟨rfl, rfl, h.1, h.2.2⟩

/-- Claim C3 is false as stated: an empty destination does not make the
side a receiver when a connection url is supplied — with `destination`
empty and `connection_url` set (the documented sender invocation), `main`
takes the sender branch. -/
theorem C3_counterexample :
    urlOnlyFlags.destination = ""
  ∧ Event.receiverInit ∉ (runMain urlOnlyFlags defEnv).events
  ∧ Event.senderInit ∈ (runMain urlOnlyFlags defEnv).events := by
  decide

/-- Claim C3 (amended): the side acts as receiver exactly when both the
destination flag and the connection-url flag are empty; a non-empty
destination, or a supplied connection url, puts the run on the sender
path. -/
theorem C3_receiver_iff_no_dest_no_url (f : Flags) (env : Env)
    (h1 : f.print_options = false) (h2 : f.parse_transfer_log = false) :
    (Event.receiverInit ∈ (runMain f env).events ↔
        f.destination = "" ∧ f.connection_url = "")
  ∧ (¬ f.destination = "" → Event.receiverInit ∉ (runMain f env).events)
  ∧ (f.destination = "" → ¬ f.connection_url = "" →
       (env.urlParse f.connection_url).errorCode = ErrorCode.OK →
       f.manifest = "" →
       Event.senderInit ∈ (runMain f env).events) := by
  have hiff : Event.receiverInit ∈ (runMain f env).events ↔
      f.destination = "" ∧ f.connection_url = "" := by
    by_cases hdu : f.destination = "" ∧ f.connection_url = ""
    · rw [runMain_receiver f env h1 h2 hdu.1 hdu.2]
      simp [hdu, receiverRun_mem_receiverInit f env (reqAfterOverride f env)]
    · simp only [hdu, iff_false]
      by_cases hu : f.connection_url = ""
      · rw [runMain_sender f env h1 h2 hdu
          (buildRequest_errorCode_of_url f env (Or.inl hu))]
        exact senderRun_no_receiverInit f env (reqAfterOverride f env)
      · by_cases hok : (env.urlParse f.connection_url).errorCode = ErrorCode.OK
        · rw [runMain_sender f env h1 h2 hdu
            (buildRequest_errorCode_of_url f env (Or.inr hok))]
          exact senderRun_no_receiverInit f env (reqAfterOverride f env)
        · rw [runMain_invalidUrl f env h1 h2 hu hok]
          simp
  refine ⟨hiff, ?_, ?_⟩
  · intro hd hmem
    exact hd (hiff.mp hmem).1
  · intro hd hu hok hman
    rw [runMain_sender f env h1 h2 (by simp [hu]) (buildRequest_errorCode_of_url f env (Or.inr hok))]
    unfold senderRun
    rw [if_pos hman]
    simp

/-- Witness for the amended C3: under default flags (both empty) the run is
a receiver. -/
theorem C3_receiver_iff_witness :
    Event.receiverInit ∈ (runMain defFlags defEnv).events
  ∧ defFlags.destination = "" ∧ defFlags.connection_url = "" := by
  refine ⟨?_, rfl, rfl⟩
  exact (C3_receiver_iff_no_dest_no_url defFlags defEnv rfl rfl).1.mpr ⟨rfl, rfl⟩

/-- Claim C4 is false as stated: `folly::split` is called with
`ignoreEmpty`, so a line with three tab-separated fields, one of them
empty, is accepted rather than rejected. -/
theorem C4_counterexample :
    (splitTab "a\t\t5").length = 3
  ∧ parseManifestLine "a\t\t5" = some { fileName := "a", fileSize := 5 } := by
  decide

/-- Claim C4 (amended): each manifest line is split at tabs with empty
fields discarded; a line is rejected exactly when no field or more than
two fields remain (so an empty line is rejected, but a line whose extra
tab-separated fields are all empty is not); one remaining field gives an
unknown size `-1`, two make the second the size; manifest path `-` makes
the file list come from stdin. -/
theorem C4_manifest_amended (l : String) (f : Flags) (env : Env) (fis : List FileInfo)
    (h1 : f.print_options = false) (h2 : f.parse_transfer_log = false)
    (h3 : ¬ f.destination = "") (h4 : f.connection_url = "")
    (h5 : f.manifest = "-") (h6 : readManifest env.stdinLines = some fis) :
    (follySplitTab l = [] ∨ 2 < (follySplitTab l).length → parseManifestLine l = none)
  ∧ ((follySplitTab l).length = 1 →
        parseManifestLine l = some { fileName := (follySplitTab l).headD "", fileSize := -1 })
  ∧ ((follySplitTab l).length = 2 →
        parseManifestLine l =
          Option.map (fun n => { fileName := (follySplitTab l).headD "", fileSize := n })
            (follyToInt64 ((follySplitTab l).getD 1 "")))
  ∧ parseManifestLine "" = none
  ∧ Option.map WdtTransferRequest.fileInfo (runMain f env).reqFinal = some fis := by
  have hfi : (reqAfterOverride f env).fileInfo = [] := by
    rw [reqAfterOverride_fileInfo]
    unfold buildRequest
    rw [if_pos h4]
  refine ⟨?_, ?_, ?_, by decide, ?_⟩
  · intro hbad
    rcases hfs : follySplitTab l with _ | ⟨p, _ | ⟨s, _ | ⟨t, rest⟩⟩⟩
    · simp [parseManifestLine, hfs]
    · rw [hfs] at hbad
      simp at hbad
    · rw [hfs] at hbad
      simp at hbad
    · simp [parseManifestLine, hfs]
  · intro hlen
    rcases hfs : follySplitTab l with _ | ⟨p, _ | ⟨s, rest⟩⟩
    · rw [hfs] at hlen
      simp at hlen
    · simp [parseManifestLine, hfs]
    · rw [hfs] at hlen
      simp at hlen
  · intro hlen
    rcases hfs : follySplitTab l with _ | ⟨p, _ | ⟨s, _ | ⟨t, rest⟩⟩⟩
    · rw [hfs] at hlen
      simp at hlen
    · rw [hfs] at hlen
      simp at hlen
    · simp [parseManifestLine, hfs]
    · rw [hfs] at hlen
      simp at hlen
  · rw [runMain_sender f env h1 h2 (by simp [h3])
      (buildRequest_errorCode_of_url f env (Or.inl h4))]
    unfold senderRun
    rw [if_neg (by simp [h5])]
    simp [h5, h6, hfi]

/-- Witness for the amended C4: a two-line stdin manifest is ingested into
the request's file list; a well-formed line parses. -/
theorem C4_manifest_witness :
    readManifest manifestEnv.stdinLines =
      some [{ fileName := "x", fileSize := 7 }, { fileName := "y", fileSize := -1 }]
  ∧ parseManifestLine "a\t5" = some { fileName := "a", fileSize := 5 }
  ∧ Option.map WdtTransferRequest.fileInfo (runMain manifestFlags manifestEnv).reqFinal =
      some [{ fileName := "x", fileSize := 7 }, { fileName := "y", fileSize := -1 }] := by
  refine ⟨by decide, by decide, ?_⟩
  exact (C4_manifest_amended "a\t5" manifestFlags manifestEnv
    [{ fileName := "x", fileSize := 7 }, { fileName := "y", fileSize := -1 }]
    rfl rfl (by decide) rfl rfl (by decide)).2.2.2.2

/-- Claim C5 is false as stated: at startup `main` installs no handler for
SIGINT or SIGTERM (they keep the default disposition, which kills the
process without touching the abort flag); only SIGPIPE is acted on. -/
theorem C5_counterexample :
    Event.signal SIGINT SigDisp.triggerAbort ∉ (runMain defFlags defEnv).events
  ∧ Event.signal SIGTERM SigDisp.triggerAbort ∉ (runMain defFlags defEnv).events
  ∧ Event.signal SIGPIPE SigDisp.ignore ∈ (runMain defFlags defEnv).events := by
  decide

/-- Claim C5 (amended): at process startup signal handling is initialised
exactly once and process-wide — `signal(SIGPIPE, SIG_IGN)` — on every path
through `main`; no SIGINT or SIGTERM handler is installed. -/
theorem C5_sigpipe_only (f : Flags) (env : Env) :
    (runMain f env).events.filter isSignalEvent = [Event.signal SIGPIPE SigDisp.ignore]
  ∧ Event.signal SIGINT SigDisp.triggerAbort ∉ (runMain f env).events
  ∧ Event.signal SIGTERM SigDisp.triggerAbort ∉ (runMain f env).events := by
  have hf : (runMain f env).events.filter isSignalEvent =
      [Event.signal SIGPIPE SigDisp.ignore] := by
    unfold runMain receiverRun senderRun
    split_ifs <;> first | rfl | (split <;> rfl)
  refine ⟨hf, ?_, ?_⟩
  · intro hm
    have hmem : Event.signal SIGINT SigDisp.triggerAbort ∈
        (runMain f env).events.filter isSignalEvent :=
      List.mem_filter.mpr ⟨hm, rfl⟩
    rw [hf] at hmem
    simp [SIGINT, SIGPIPE] at hmem
  · intro hm
    have hmem : Event.signal SIGTERM SigDisp.triggerAbort ∈
        (runMain f env).events.filter isSignalEvent :=
      List.mem_filter.mpr ⟨hm, rfl⟩
    rw [hf] at hmem
    simp [SIGTERM, SIGPIPE] at hmem

/-- Witness for the amended C5 at the default flags. -/
theorem C5_sigpipe_only_witness :
    (runMain defFlags defEnv).events.filter isSignalEvent =
      [Event.signal SIGPIPE SigDisp.ignore] :=
  (C5_sigpipe_only defFlags defEnv).1

/-- Claim C6: with `parse_transfer_log` set the program performs no
transfer — it opens the log under the given directory, parses and prints
it, closes it, and exits with OK exactly when parsing succeeded and with
ERROR otherwise. -/
theorem C6_parse_log_mode (f : Flags) (env : Env)
    (h1 : f.print_options = false) (h2 : f.parse_transfer_log = true) :
    (runMain f env).events =
        [Event.signal SIGPIPE SigDisp.ignore, Event.setResumption true,
         Event.openLog f.directory, Event.parseAndPrint env.logParseSuccess, Event.closeLog]
  ∧ (runMain f env).events.filter isTransferEvent = []
  ∧ ((runMain f env).outcome = Outcome.exits (ErrorCode.toNat ErrorCode.OK) ↔
        env.logParseSuccess = true)
  ∧ (env.logParseSuccess = false →
        (runMain f env).outcome = Outcome.exits (ErrorCode.toNat ErrorCode.ERROR)) := by
  unfold runMain
  rw [if_neg (by simp [h1]), if_pos h2]
  refine ⟨rfl, rfl, ?_, ?_⟩
  · cases hls : env.logParseSuccess <;> simp [hls, ErrorCode.toNat]
  · intro hls
    simp [hls, ErrorCode.toNat]

/-- Witness for C6: successful log parsing exits 0 with a pure
open/parse/close trace. -/
theorem C6_parse_log_mode_witness :
    logFlags.parse_transfer_log = true
  ∧ (runMain logFlags defEnv).events.filter isTransferEvent = []
  ∧ ((runMain logFlags defEnv).outcome = Outcome.exits (ErrorCode.toNat ErrorCode.OK) ↔
        defEnv.logParseSuccess = true) := by
  have h := C6_parse_log_mode logFlags defEnv rfl rfl
  exact ⟨rfl, h.2.1, h.2.2.1⟩

/-- Claim C7: a receiver started with `run_as_daemon` enters
`runForever` — the never-ending serve loop, which does not terminate while
the abort checker has not fired — and never reaches the single-transfer
`transferAsync`/`finish` path; without the flag exactly one transfer is
performed and the run exits with that transfer's summary code. -/
theorem C7_daemon_mode (f : Flags) (env : Env) (fuel : Nat)
    (h1 : f.print_options = false) (h2 : f.parse_transfer_log = false)
    (h3 : f.destination = "") (h4 : f.connection_url = "")
    (h5 : ¬ (f.treat_fewer_port_as_error = true ∧ env.receiverInitCode = ErrorCode.FEWER_PORTS))
    (h6 : ¬ env.receiverInitCode = ErrorCode.ERROR)
    (h7 : ∀ n, env.abortFires n = false) :
    (f.run_as_daemon = true →
        (runMain f env).outcome = Outcome.daemon
      ∧ Event.runForeverEntered ∈ (runMain f env).events
      ∧ (runMain f env).events.filter isTransferAsyncEvent = []
      ∧ (runMain f env).events.filter isFinishEvent = []
      ∧ runForever env.abortFires 0 fuel = none)
  ∧ (f.run_as_daemon = false →
        (runMain f env).events.filter isTransferAsyncEvent = [Event.transferAsync]
      ∧ (runMain f env).events.filter isFinishEvent = [Event.finishTransfer env.receiverReport]
      ∧ Event.runForeverEntered ∉ (runMain f env).events
      ∧ (runMain f env).outcome = Outcome.exits (ErrorCode.toNat env.receiverReport)) := by
  rw [runMain_receiver f env h1 h2 h3 h4]
  unfold receiverRun
  rw [if_neg h5, if_neg h6]
  constructor
  · intro hd
    rw [if_neg (by simp [hd])]
    by_cases hr : f.recovery_id = "" <;>
      simp [hr, isTransferAsyncEvent, isFinishEvent,
        runForever_not_aborted env.abortFires h7 fuel 0]
  · intro hd
    rw [if_pos hd]
    by_cases hr : f.recovery_id = "" <;>
      simp [hr, isTransferAsyncEvent, isFinishEvent]

/-- Witness for C7: a daemon receiver enters the forever loop and, with an
abort checker that never fires, the loop has not returned after 3
iterations. -/
theorem C7_daemon_mode_witness :
    daemonFlags.run_as_daemon = true
  ∧ (runMain daemonFlags defEnv).outcome = Outcome.daemon
  ∧ Event.runForeverEntered ∈ (runMain daemonFlags defEnv).events
  ∧ (runMain daemonFlags defEnv).events.filter isFinishEvent = []
  ∧ runForever defEnv.abortFires 0 3 = none := by
  have h := (C7_daemon_mode daemonFlags defEnv 3 rfl rfl rfl rfl
    (by decide) (by decide) (fun _ => rfl)).1 rfl
  exact ⟨rfl, h.1, h.2.1, h.2.2.2.1, h.2.2.2.2⟩

/-- Claim C8: a receiver that passes init prints the connection url on
stdout and flushes it before any transfer event; a sender given
`connection_url` takes its request parameters (host, transfer id, ports)
from the parsed url, with only the directory overridden from the flag. -/
theorem C8_url_before_transfer (f : Flags) (env : Env)
    (h1 : f.print_options = false) (h2 : f.parse_transfer_log = false) :
    (f.destination = "" → f.connection_url = "" →
       ¬ (f.treat_fewer_port_as_error = true ∧ env.receiverInitCode = ErrorCode.FEWER_PORTS) →
       ¬ env.receiverInitCode = ErrorCode.ERROR →
         (runMain f env).events.take 4 =
           [Event.signal SIGPIPE SigDisp.ignore, Event.receiverInit,
            Event.stdoutLine env.receiverUrl, Event.stdoutFlush]
       ∧ ((runMain f env).events.take 4).filter isTransferEvent = [])
  ∧ (¬ f.connection_url = "" →
       (env.urlParse f.connection_url).errorCode = ErrorCode.OK →
         Option.map WdtTransferRequest.hostName (runMain f env).reqAfterVersion =
           some (env.urlParse f.connection_url).hostName
       ∧ Option.map WdtTransferRequest.transferId (runMain f env).reqAfterVersion =
           some (env.urlParse f.connection_url).transferId
       ∧ Option.map WdtTransferRequest.startPort (runMain f env).reqAfterVersion =
           some (env.urlParse f.connection_url).startPort
       ∧ Option.map WdtTransferRequest.numPorts (runMain f env).reqAfterVersion =
           some (env.urlParse f.connection_url).numPorts
       ∧ Option.map WdtTransferRequest.directory (runMain f env).reqAfterVersion =
           some f.directory) := by
  constructor
  · intro h3 h4 h5 h6
    rw [runMain_receiver f env h1 h2 h3 h4]
    unfold receiverRun
    rw [if_neg h5, if_neg h6]
    by_cases hr : f.recovery_id = "" <;>
      by_cases hd : f.run_as_daemon = false <;>
        simp [hr, hd, isTransferEvent]
  · intro hu hok
    have hns : ¬ (f.destination = "" ∧ f.connection_url = "") := by simp [hu]
    rw [runMain_sender f env h1 h2 hns (buildRequest_errorCode_of_url f env (Or.inr hok))]
    rw [senderRun_reqAfterVersion]
    have hf := reqAfterOverride_fields f env
    rw [buildRequest_of_url f env hu] at hf
    exact ⟨by simp [Option.map, hf.1], by simp [Option.map, hf.2.1],
      by simp [Option.map, hf.2.2.1], by simp [Option.map, hf.2.2.2.1],
      by simp [Option.map, hf.2.2.2.2]⟩

/-- Witness for C8: the default receiver prints and flushes the url right
after init, before any transfer event. -/
theorem C8_url_before_transfer_witness :
    (runMain defFlags defEnv).events.take 4 =
      [Event.signal SIGPIPE SigDisp.ignore, Event.receiverInit,
       Event.stdoutLine defEnv.receiverUrl, Event.stdoutFlush]
  ∧ ((runMain defFlags defEnv).events.take 4).filter isTransferEvent = [] :=
  (C8_url_before_transfer defFlags defEnv rfl rfl).1 rfl rfl (by decide) (by decide)

/-- Claim C9: the `protocol_version` flag overrides the request's protocol
version exactly when it is strictly positive; zero or negative leaves the
version from the connection url, or the library default, unchanged. -/
theorem C9_protocol_override (f : Flags) (env : Env)
    (h1 : f.print_options = false) (h2 : f.parse_transfer_log = false)
    (h3 : ¬ f.connection_url = "" → (env.urlParse f.connection_url).errorCode = ErrorCode.OK) :
    Option.map WdtTransferRequest.protocolVersion (runMain f env).reqAfterVersion =
        some (if 0 < f.protocol_version then f.protocol_version
              else (buildRequest f env).protocolVersion)
  ∧ (f.protocol_version ≤ 0 →
        Option.map WdtTransferRequest.protocolVersion (runMain f env).reqAfterVersion =
          some ((buildRequest f env).protocolVersion))
  ∧ (buildRequest f env).protocolVersion =
        (if f.connection_url = "" then env.defaultProtocolVersion
         else (env.urlParse f.connection_url).protocolVersion) := by
  have hreq : (runMain f env).reqAfterVersion = some (reqAfterOverride f env) := by
    by_cases hdu : f.destination = "" ∧ f.connection_url = ""
    · rw [runMain_receiver f env h1 h2 hdu.1 hdu.2, receiverRun_reqAfterVersion]
    · have hok : (buildRequest f env).errorCode = ErrorCode.OK := by
        by_cases hu : f.connection_url = ""
        · exact buildRequest_errorCode_of_url f env (Or.inl hu)
        · exact buildRequest_errorCode_of_url f env (Or.inr (h3 hu))
      rw [runMain_sender f env h1 h2 hdu hok, senderRun_reqAfterVersion]
  refine ⟨?_, ?_, ?_⟩
  · rw [hreq]
    simp [Option.map, reqAfterOverride_protocolVersion]
  · intro hle
    rw [hreq]
    simp [Option.map, reqAfterOverride_protocolVersion, not_lt.mpr hle]
  · unfold buildRequest
    by_cases hu : f.connection_url = "" <;> simp [hu]

/-- Witness for C9: a positive flag (19) overrides the default version. -/
theorem C9_protocol_override_witness :
    0 < versionFlags.protocol_version
  ∧ Option.map WdtTransferRequest.protocolVersion
      (runMain versionFlags defEnv).reqAfterVersion =
    some (if 0 < versionFlags.protocol_version then versionFlags.protocol_version
          else (buildRequest versionFlags defEnv).protocolVersion) := by
  have h := C9_protocol_override versionFlags defEnv rfl rfl (fun hu => absurd rfl hu)
  exact ⟨by decide, h.1⟩

/-- Claim C10: on a receiver run that proceeds past init, a non-empty
`recovery_id` forces the global `enable_download_resumption` option to
true and installs the recovery id on the receiver; an empty one leaves the
option as configured and installs nothing. -/
theorem C10_recovery_id (f : Flags) (env : Env)
    (h1 : f.print_options = false) (h2 : f.parse_transfer_log = false)
    (h3 : f.destination = "") (h4 : f.connection_url = "")
    (h5 : ¬ (f.treat_fewer_port_as_error = true ∧ env.receiverInitCode = ErrorCode.FEWER_PORTS))
    (h6 : ¬ env.receiverInitCode = ErrorCode.ERROR) :
    (¬ f.recovery_id = "" →
        (runMain f env).finalResumption = true
      ∧ Event.setResumption true ∈ (runMain f env).events
      ∧ Event.setRecoveryId f.recovery_id ∈ (runMain f env).events)
  ∧ (f.recovery_id = "" →
        (runMain f env).finalResumption = env.initialResumption
      ∧ (runMain f env).events.filter isRecoveryEvent = []) := by
  rw [runMain_receiver f env h1 h2 h3 h4]
  unfold receiverRun
  rw [if_neg h5, if_neg h6]
  constructor
  · intro hr
    by_cases hd : f.run_as_daemon = false <;> simp [hr, hd, isRecoveryEvent]
  · intro hr
    by_cases hd : f.run_as_daemon = false <;> simp [hr, hd, isRecoveryEvent]

/-- Witness for C10: `recovery_id = "rec1"` forces resumption on and is
installed on the receiver. -/
theorem C10_recovery_id_witness :
    ¬ recoveryFlags.recovery_id = ""
  ∧ (runMain recoveryFlags defEnv).finalResumption = true
  ∧ Event.setRecoveryId recoveryFlags.recovery_id ∈ (runMain recoveryFlags defEnv).events := by
  have h := (C10_recovery_id recoveryFlags defEnv rfl rfl rfl rfl
    (by decide) (by decide)).1 (by decide)
  exact ⟨by decide, h.1, h.2.2⟩

end Wdt
